import Mathlib

/-!
Shallow embedding of `src/automation.py` (a one-shot Selenium automation
script) and proofs about the claims of its specification.

The script is a straight-line program:
  line 17: `driver = webdriver.Chrome(options=chrome_options)`  (OUTSIDE the try block)
  try:
    line 21: `driver.get("http://localhost:3000/paste-json")`
    line 24: `wait = WebDriverWait(driver, 10)`
    line 25: `textarea = wait.until(EC.presence_of_element_located((By.ID, "json-text")))`
    line 60: `textarea.send_keys(answer_text)`           (send_keys APPENDS keystrokes)
    line 63: `submit_button = wait.until(EC.element_to_be_clickable((By.ID, "submit-button")))`
    line 64: `submit_button.click()`
    line 67: `time.sleep(2)`
    line 69: `print("Automation completed successfully!")`
  except Exception as e:
    line 72: `print(f"Error occurred: ...")`   (message is "Error occurred: " + str(e))
  finally:
    line 76: `driver.quit()`

The environment (browser, page, OS) decides which driver calls succeed; the
`Env` structure records one behaviour of that environment, and `run` computes
the script's execution against it: the sequence of driver calls issued, the
lines printed, the exception caught by the `except` clause (if any), the
exception escaping the script unhandled (if any), and the textarea content.
-/

namespace Automation

/-- Fixed target URL of `driver.get` (line 21 of the source). -/
def targetUrl : String := "http://localhost:3000/paste-json"

/-- Fixed id of the input element polled for presence (line 25). -/
def inputFieldId : String := "json-text"

/-- Fixed id of the trigger element polled for clickability (line 63). -/
def submitButtonId : String := "submit-button"

/-- Timeout of the single `WebDriverWait(driver, 10)` object (line 24), shared
by both polling waits. -/
def waitTimeoutSeconds : Nat := 10

/-- Fixed settling delay of `time.sleep(2)` (line 67). -/
def settleDelaySeconds : Nat := 2

/-- Headless mode: the `--headless` option is commented out (line 12), so the
session is created with headless off. -/
def headlessMode : Bool := false

/-- The fixed JSON payload `answer_text` (lines 28-59 of the source), verbatim. -/
def answer_text : String := "\x7b\n  \"id\": \"recipe-123\",\n  \"name\": \x7b\n    \"en\": \"Chicken Curry\",\n    \"de\": \"Hühnchen Curry\",\n    \"nl\": \"Kip Curry\",\n    \"hu\": \"Csirke Curry\",\n    \"fr\": \"Curry de Poulet\",\n    \"es\": \"Curry de Pollo\",\n    \"pt\": \"Curry de Frango\"\n  \x7d,\n  \"description\": \x7b\n    \"en\": \"A delicious chicken curry recipe\"\n  \x7d,\n  \"ingredients\": [],\n  \"steps\": [],\n  \"difficulty\": 5,\n  \"servings\": 4,\n  \"time\": \x7b\n    \"prepMinutes\": 15,\n    \"cookMinutes\": 30,\n    \"totalMinutes\": 45\n  \x7d,\n  \"macros\": \x7b\n    \"calories\": 500,\n    \"protein\": 20,\n    \"carbohydrates\": 50,\n    \"fat\": 20\n  \x7d,\n  \"mealType\": \"dinner\",\n  \"cuisineType\": \"indian\"\n\x7d"

/-- The success line printed at line 69 of the source. -/
def successMessage : String := "Automation completed successfully!"

/-- One driver/library call issued by the script, with its arguments. -/
inductive Call where
  | chrome (headless : Bool)
  | get (url : String)
  | waitPresent (elemId : String) (timeoutSecs : Nat)
  | sendKeysTo (elemId : String) (text : String)
  | waitClickable (elemId : String) (timeoutSecs : Nat)
  | click (elemId : String)
  | sleep (secs : Nat)
  | quit
  deriving DecidableEq

/-- A Python exception raised during the run, tagged by the program point /
cause that raised it.  The two `wait.until` timeouts carry no message: Selenium
raises `TimeoutException` (the same Python class, with the same empty message)
for both of them. -/
inductive Exn where
  | sessionCreate (msg : String)
  | navigation (msg : String)
  | timeoutPresence
  | timeoutClickable
  | sendKeysErr (msg : String)
  | clickErr (msg : String)
  | sleepErr (msg : String)
  | quitErr (msg : String)
  deriving DecidableEq

/-- Python `str(e)` of an exception.  Selenium formats a `TimeoutException`
with an empty message as "Message: " followed by a newline. -/
def exnStr : Exn → String
  | .sessionCreate m => m
  | .navigation m => m
  | .timeoutPresence => "Message: \n"
  | .timeoutClickable => "Message: \n"
  | .sendKeysErr m => m
  | .clickErr m => m
  | .sleepErr m => m
  | .quitErr m => m

/-- The line printed by the `except` clause (line 72 of the source):
`f"Error occurred: ..."` interpolating `str(e)`. -/
def errorLine (e : Exn) : String := String.append ("Error occurred: ") (exnStr e)

/-- The spec's error taxonomy (spec section 7). -/
inductive ErrorClass where
  | NavigationError
  | ElementNotFoundError
  | ElementNotInteractableError
  | SessionError
  | OtherError
  deriving DecidableEq

/-- Classification of a raised exception into the spec's section-7 taxonomy,
following the spec's own definitions of the classes by failure cause:
`ElementNotFoundError` is "required element absent after the polling timeout
elapses" (the presence wait timing out) and `ElementNotInteractableError` is
"element located but not clickable/editable within timeout" (the clickability
wait timing out, or the located element rejecting keystrokes).  This
definition follows the spec's words; the code itself raises the same Python
class (`TimeoutException`) for both timeouts, distinguished only by cause. -/
def specErrorClass : Exn → ErrorClass
  | .sessionCreate _ => .SessionError
  | .navigation _ => .NavigationError
  | .timeoutPresence => .ElementNotFoundError
  | .timeoutClickable => .ElementNotInteractableError
  | .sendKeysErr _ => .ElementNotInteractableError
  | .clickErr _ => .OtherError
  | .sleepErr _ => .OtherError
  | .quitErr _ => .SessionError

/-- States of the spec's state machine (spec section 4.1). -/
inductive RState where
  | NotStarted
  | SessionOpen
  | Navigated
  | FieldFilled
  | Submitted
  | Closed
  deriving DecidableEq

/-- One behaviour of the environment (browser process, target page, OS): for
each step the script may attempt, whether it succeeds, and the exception
message when it fails.  The two waits are driven by whether the page makes the
element present / clickable within the 10-second timeout. -/
structure Env where
  createFails : Option String
  navFails : Option String
  inputPresentWithinTimeout : Bool
  textareaInitialContent : String
  sendKeysFails : Option String
  submitClickableWithinTimeout : Bool
  clickFails : Option String
  sleepFails : Option String
  quitFails : Option String

/-- Outcome of the `try` block's body (lines 19-69), given that session
creation succeeded: the driver calls issued inside the block, the states of
the spec's machine entered after `SessionOpen`, the textarea content (tracked
once the fill step completes; `send_keys` appends keystrokes to the existing
content), and the exception the block raises, if any. -/
structure BodyOut where
  calls : List Call
  visited : List RState
  content : Option String
  raised : Option Exn

/-- Execution of the `try` block's body (lines 19-69) against environment
`env`, mirroring the source line by line: navigate (line 21), presence wait
(line 25), `send_keys` (line 60), clickability wait (line 63), click
(line 64), `time.sleep(2)` (line 67).  Each step either succeeds and control
falls through to the next line, or raises, ending the block. -/
def body (env : Env) : BodyOut :=
  match env.navFails with
  | some m => ⟨[Call.get targetUrl], [], none, some (Exn.navigation m)⟩
  | none =>
    if env.inputPresentWithinTimeout then
      match env.sendKeysFails with
      | some m =>
        ⟨[Call.get targetUrl, Call.waitPresent inputFieldId waitTimeoutSeconds,
          Call.sendKeysTo inputFieldId answer_text],
         [RState.Navigated], none, some (Exn.sendKeysErr m)⟩
      | none =>
        if env.submitClickableWithinTimeout then
          match env.clickFails with
          | some m =>
            ⟨[Call.get targetUrl, Call.waitPresent inputFieldId waitTimeoutSeconds,
              Call.sendKeysTo inputFieldId answer_text,
              Call.waitClickable submitButtonId waitTimeoutSeconds,
              Call.click submitButtonId],
             [RState.Navigated, RState.FieldFilled],
             some (String.append env.textareaInitialContent answer_text),
             some (Exn.clickErr m)⟩
          | none =>
            match env.sleepFails with
            | some m =>
              ⟨[Call.get targetUrl, Call.waitPresent inputFieldId waitTimeoutSeconds,
                Call.sendKeysTo inputFieldId answer_text,
                Call.waitClickable submitButtonId waitTimeoutSeconds,
                Call.click submitButtonId, Call.sleep settleDelaySeconds],
               [RState.Navigated, RState.FieldFilled, RState.Submitted],
               some (String.append env.textareaInitialContent answer_text),
               some (Exn.sleepErr m)⟩
            | none =>
              ⟨[Call.get targetUrl, Call.waitPresent inputFieldId waitTimeoutSeconds,
                Call.sendKeysTo inputFieldId answer_text,
                Call.waitClickable submitButtonId waitTimeoutSeconds,
                Call.click submitButtonId, Call.sleep settleDelaySeconds],
               [RState.Navigated, RState.FieldFilled, RState.Submitted],
               some (String.append env.textareaInitialContent answer_text),
               none⟩
        else
          ⟨[Call.get targetUrl, Call.waitPresent inputFieldId waitTimeoutSeconds,
            Call.sendKeysTo inputFieldId answer_text,
            Call.waitClickable submitButtonId waitTimeoutSeconds],
           [RState.Navigated, RState.FieldFilled],
           some (String.append env.textareaInitialContent answer_text),
           some Exn.timeoutClickable⟩
    else
      ⟨[Call.get targetUrl, Call.waitPresent inputFieldId waitTimeoutSeconds],
       [RState.Navigated], none, some Exn.timeoutPresence⟩

/-- Observable outcome of one execution of the script. -/
structure RunResult where
  trace : List Call
  visited : List RState
  output : List String
  caught : Option Exn
  uncaught : Option Exn
  sessionsCreated : Nat
  content : Option String

/-- Execution of the whole script against environment `env`.

Line 17 (`webdriver.Chrome`) runs OUTSIDE the `try` block: if session creation
raises, the exception escapes the script unhandled, nothing is printed by the
script, and neither the `try` body nor the `finally` clause (`driver.quit`,
line 76) ever runs.  Otherwise the `try` body runs; a raised exception is
caught by `except Exception` and printed as one line (line 72); on no
exception the success line is printed (line 69); in both cases `finally` then
calls `driver.quit` exactly once, and if `quit` itself raises, that exception
is not caught by anything and escapes the script unhandled. -/
def run (env : Env) : RunResult :=
  match env.createFails with
  | some m =>
    { trace := [Call.chrome headlessMode]
      visited := [RState.NotStarted]
      output := []
      caught := none
      uncaught := some (Exn.sessionCreate m)
      sessionsCreated := 0
      content := none }
  | none =>
    { trace := Call.chrome headlessMode :: ((body env).calls ++ [Call.quit])
      visited := RState.NotStarted :: RState.SessionOpen ::
        ((body env).visited ++ [RState.Closed])
      output :=
        match (body env).raised with
        | none => [successMessage]
        | some e => [errorLine e]
      caught := (body env).raised
      uncaught :=
        match env.quitFails with
        | some m => some (Exn.quitErr m)
        | none => none
      sessionsCreated := 1
      content := (body env).content }

/-- The fixed sequence of driver calls the `try` body issues when every step
succeeds; every execution issues an initial segment of it (truncated at the
first failing step). -/
def mainCalls : List Call :=
  [Call.get targetUrl, Call.waitPresent inputFieldId waitTimeoutSeconds,
   Call.sendKeysTo inputFieldId answer_text,
   Call.waitClickable submitButtonId waitTimeoutSeconds,
   Call.click submitButtonId, Call.sleep settleDelaySeconds]

/-- The success spine of the spec's state machine, in order. -/
def stateChain : List RState :=
  [RState.NotStarted, RState.SessionOpen, RState.Navigated,
   RState.FieldFilled, RState.Submitted]

/-- Environment behaviour under which every step of the run succeeds. -/
def allStepsOk (env : Env) : Prop :=
  env.createFails = none ∧ env.navFails = none ∧
  env.inputPresentWithinTimeout = true ∧ env.sendKeysFails = none ∧
  env.submitClickableWithinTimeout = true ∧ env.clickFails = none ∧
  env.sleepFails = none

/- Concrete environments used as witnesses and counterexamples. -/

/-- Environment where every step succeeds and the textarea starts empty. -/
def envAllOk : Env :=
  { createFails := none, navFails := none, inputPresentWithinTimeout := true,
    textareaInitialContent := "", sendKeysFails := none,
    submitClickableWithinTimeout := true, clickFails := none,
    sleepFails := none, quitFails := none }

/-- Environment where the browser session fails to start (line 17 raises). -/
def envNoDriver : Env :=
  { createFails := some ("chromedriver executable needs to be in PATH"),
    navFails := none, inputPresentWithinTimeout := true,
    textareaInitialContent := "", sendKeysFails := none,
    submitClickableWithinTimeout := true, clickFails := none,
    sleepFails := none, quitFails := none }

/-- Environment where navigation fails and everything else would succeed. -/
def envNavFail : Env :=
  { createFails := none, navFails := some ("net::ERR_CONNECTION_REFUSED"),
    inputPresentWithinTimeout := true, textareaInitialContent := "",
    sendKeysFails := none, submitClickableWithinTimeout := true,
    clickFails := none, sleepFails := none, quitFails := none }

/-- Environment where the input element never becomes present in time. -/
def envInputNever : Env :=
  { createFails := none, navFails := none, inputPresentWithinTimeout := false,
    textareaInitialContent := "", sendKeysFails := none,
    submitClickableWithinTimeout := true, clickFails := none,
    sleepFails := none, quitFails := none }

/-- Environment where the trigger element never becomes clickable in time. -/
def envTriggerNever : Env :=
  { createFails := none, navFails := none, inputPresentWithinTimeout := true,
    textareaInitialContent := "", sendKeysFails := none,
    submitClickableWithinTimeout := false, clickFails := none,
    sleepFails := none, quitFails := none }

/-- Environment where the textarea already holds text before the fill step. -/
def envPrefilled : Env :=
  { createFails := none, navFails := none, inputPresentWithinTimeout := true,
    textareaInitialContent := "old", sendKeysFails := none,
    submitClickableWithinTimeout := true, clickFails := none,
    sleepFails := none, quitFails := none }

/-- Environment where every main step succeeds but `driver.quit` raises. -/
def envQuitBoom : Env :=
  { createFails := none, navFails := none, inputPresentWithinTimeout := true,
    textareaInitialContent := "", sendKeysFails := none,
    submitClickableWithinTimeout := true, clickFails := none,
    sleepFails := none, quitFails := some ("browser has been closed") }

/-- Environment where the click raises and then `driver.quit` also raises. -/
def envClickAndQuitFail : Env :=
  { createFails := none, navFails := none, inputPresentWithinTimeout := true,
    textareaInitialContent := "", sendKeysFails := none,
    submitClickableWithinTimeout := true,
    clickFails := some ("element click intercepted"),
    sleepFails := some ("interrupted"), quitFails := some ("gone") }

/-- Environment where the post-click delay raises and teardown succeeds. -/
def envSleepFail : Env :=
  { createFails := none, navFails := none, inputPresentWithinTimeout := true,
    textareaInitialContent := "", sendKeysFails := none,
    submitClickableWithinTimeout := true, clickFails := none,
    sleepFails := some ("interrupted"), quitFails := none }

/- Helper lemmas shared by the claim theorems. -/

/-- The calls the try body issues are always an initial segment of the fixed
sequence `mainCalls`: the environment can only truncate the sequence at the
first failing step, never change a call or its arguments. -/
theorem body_calls_take (env : Env) :
    ∃ k, k ≤ 6 ∧ (body env).calls = mainCalls.take k := by
  cases hnf : env.navFails with
  | some m => exact ⟨1, by decide, by simp [body, hnf, mainCalls]⟩
  | none =>
    cases hip : env.inputPresentWithinTimeout with
    | false => exact ⟨2, by decide, by simp [body, hnf, hip, mainCalls]⟩
    | true =>
      cases hsk : env.sendKeysFails with
      | some m => exact ⟨3, by decide, by simp [body, hnf, hip, hsk, mainCalls]⟩
      | none =>
        cases htc : env.submitClickableWithinTimeout with
        | false => exact ⟨4, by decide, by simp [body, hnf, hip, hsk, htc, mainCalls]⟩
        | true =>
          cases hck : env.clickFails with
          | some m =>
            exact ⟨5, by decide, by simp [body, hnf, hip, hsk, htc, hck, mainCalls]⟩
          | none =>
            cases hsl : env.sleepFails with
            | some m =>
              exact ⟨6, by decide, by simp [body, hnf, hip, hsk, htc, hck, hsl, mainCalls]⟩
            | none =>
              exact ⟨6, by decide, by simp [body, hnf, hip, hsk, htc, hck, hsl, mainCalls]⟩

/-- `driver.quit` is never issued inside the try body. -/
theorem quit_not_in_body (env : Env) : Call.quit ∉ (body env).calls := by
  obtain ⟨k, _, hcalls⟩ := body_calls_take env
  rw [hcalls]
  intro hmem
  exact (by decide : Call.quit ∉ mainCalls) (List.take_subset k mainCalls hmem)

/-- The session-creation call is never issued inside the try body. -/
theorem chrome_not_in_body (env : Env) : Call.chrome headlessMode ∉ (body env).calls := by
  obtain ⟨k, _, hcalls⟩ := body_calls_take env
  rw [hcalls]
  intro hmem
  exact (by decide : Call.chrome headlessMode ∉ mainCalls) (List.take_subset k mainCalls hmem)

/-- The success line differs from every error line: an error line starts with
"Error occurred: " while the success line starts with an A. -/
theorem successMessage_ne_errorLine (e : Exn) : successMessage ≠ errorLine e := by
  intro h
  have hd : successMessage.data = ("Error occurred: ").data ++ (exnStr e).data := by
    rw [h]; rfl
  rw [show successMessage.data =
        'A' :: ("utomation completed successfully!").data from by decide,
      show ("Error occurred: ").data = 'E' :: ("rror occurred: ").data from by decide,
      List.cons_append] at hd
  injection hd with h1 _
  exact absurd h1 (by decide)

/-- Body of the try block raises nothing exactly when every step of it
succeeds. -/
theorem body_raised_none_iff (env : Env) :
    (body env).raised = none ↔
      (env.navFails = none ∧ env.inputPresentWithinTimeout = true ∧
       env.sendKeysFails = none ∧ env.submitClickableWithinTimeout = true ∧
       env.clickFails = none ∧ env.sleepFails = none) := by
  cases hnf : env.navFails with
  | some m => simp [body, hnf]
  | none =>
    cases hip : env.inputPresentWithinTimeout with
    | false => simp [body, hnf, hip]
    | true =>
      cases hsk : env.sendKeysFails with
      | some m => simp [body, hnf, hip, hsk]
      | none =>
        cases htc : env.submitClickableWithinTimeout with
        | false => simp [body, hnf, hip, hsk, htc]
        | true =>
          cases hck : env.clickFails with
          | some m => simp [body, hnf, hip, hsk, htc, hck]
          | none =>
            cases hsl : env.sleepFails with
            | some m => simp [body, hnf, hip, hsk, htc, hck, hsl]
            | none => simp [body, hnf, hip, hsk, htc, hck, hsl]

/- Claim theorems. -/

/-- Claim C1, counterexample: when the browser session fails to start
(`webdriver.Chrome` at line 17 raises, before the try block), `driver.quit`
runs zero times, not once, so teardown does not run on this failure path;
no session was created either, and the error escapes unhandled. -/
theorem c1_counterexample :
    (run envNoDriver).sessionsCreated = 0 ∧
      (run envNoDriver).trace.count Call.quit = 0 ∧
      ¬ (run envNoDriver).trace.count Call.quit = 1 := by
  decide

/-- Claim C1 (amended): in every execution in which session creation succeeds,
exactly one session is created and `driver.quit` runs exactly once, on the
success path and on every failure path; when session creation fails, no
session is created and teardown never runs. -/
theorem c1_teardown_once_when_session_created (env : Env)
    (h : env.createFails = none) :
    (run env).sessionsCreated = 1 ∧ (run env).trace.count Call.quit = 1 := by
  refine ⟨by simp [run, h], ?_⟩
  obtain ⟨k, hk, hcalls⟩ := body_calls_take env
  have htr : (run env).trace =
      Call.chrome headlessMode :: (mainCalls.take k ++ [Call.quit]) := by
    simp [run, h, hcalls]
  rw [htr]
  interval_cases k <;> decide

/-- Claim C1, witness: the teardown-exactly-once theorem applied to the
all-steps-succeed environment. -/
theorem c1_witness :
    envAllOk.createFails = none ∧
      ((run envAllOk).sessionsCreated = 1 ∧
        (run envAllOk).trace.count Call.quit = 1) :=
  ⟨rfl, c1_teardown_once_when_session_created envAllOk rfl⟩

/-- Claim C2, counterexample: a `SessionError` raised by `webdriver.Chrome`
(line 17, before the try block) is not caught at the top level: it escapes
the script as an unhandled exception and no failure message is printed. -/
theorem c2_counterexample :
    (run envNoDriver).uncaught =
        some (Exn.sessionCreate ("chromedriver executable needs to be in PATH")) ∧
      (run envNoDriver).output = [] := by
  decide

/-- Claim C2 (amended): every exception raised inside the try block is caught
at the top level, converted to the single human-readable error line, and no
step is ever retried; but an error during session creation (before the try)
or during teardown escapes the script as an unhandled exception, so no error
escapes only when session creation and teardown both succeed. -/
theorem c2_try_errors_caught (env : Env) (hc : env.createFails = none)
    (hq : env.quitFails = none) :
    (run env).uncaught = none ∧
      (∀ e, (run env).caught = some e → (run env).output = [errorLine e]) ∧
      (run env).trace.Nodup := by
  refine ⟨by simp [run, hc, hq], ?_, ?_⟩
  · intro e he
    have hb : (body env).raised = some e := by simpa [run, hc] using he
    simp [run, hc, hb]
  · obtain ⟨k, hk, hcalls⟩ := body_calls_take env
    have htr : (run env).trace =
        Call.chrome headlessMode :: (mainCalls.take k ++ [Call.quit]) := by
      simp [run, hc, hcalls]
    rw [htr]
    interval_cases k <;> decide

/-- Claim C2, witness: in the navigation-failure environment, the exception is
caught, exactly the error line is printed, nothing escapes unhandled, and no
call is repeated. -/
theorem c2_witness :
    (run envNavFail).uncaught = none ∧
      (run envNavFail).output =
        [errorLine (Exn.navigation ("net::ERR_CONNECTION_REFUSED"))] ∧
      (run envNavFail).trace.Nodup := by
  obtain ⟨h1, h2, h3⟩ := c2_try_errors_caught envNavFail rfl rfl
  exact ⟨h1, h2 _ rfl, h3⟩

/-- Claim C3 (confirmed): when every step succeeds the run issues exactly the
claimed sequence of calls, in order, with nothing in between: open session,
navigate to the target URL, poll for the input element, set its content to
the payload, poll for the trigger, invoke it, pause the fixed delay, close
the session. -/
theorem c3_success_sequence (env : Env) (h : allStepsOk env) :
    (run env).trace =
      [Call.chrome headlessMode, Call.get targetUrl,
       Call.waitPresent inputFieldId waitTimeoutSeconds,
       Call.sendKeysTo inputFieldId answer_text,
       Call.waitClickable submitButtonId waitTimeoutSeconds,
       Call.click submitButtonId, Call.sleep settleDelaySeconds, Call.quit] ∧
      (run env).caught = none := by
  obtain ⟨hc, hn, hip, hsk, htc, hck, hsl⟩ := h
  constructor <;> simp [run, body, hc, hn, hip, hsk, htc, hck, hsl]

/-- Claim C3, witness: the success-sequence theorem applied to the
all-steps-succeed environment. -/
theorem c3_witness :
    allStepsOk envAllOk ∧
      ((run envAllOk).trace =
        [Call.chrome headlessMode, Call.get targetUrl,
         Call.waitPresent inputFieldId waitTimeoutSeconds,
         Call.sendKeysTo inputFieldId answer_text,
         Call.waitClickable submitButtonId waitTimeoutSeconds,
         Call.click submitButtonId, Call.sleep settleDelaySeconds, Call.quit] ∧
        (run envAllOk).caught = none) :=
  ⟨⟨rfl, rfl, rfl, rfl, rfl, rfl, rfl⟩,
    c3_success_sequence envAllOk ⟨rfl, rfl, rfl, rfl, rfl, rfl, rfl⟩⟩

/-- Claim C4 (confirmed): when the page never exposes the input element within
the timeout, the run fails with the presence-wait timeout, which the spec's
taxonomy classes as `ElementNotFoundError` (and no other class); exactly the
error line is printed, the success line is not, and teardown still occurs. -/
theorem c4_input_never_present (env : Env) (hc : env.createFails = none)
    (hn : env.navFails = none) (hip : env.inputPresentWithinTimeout = false) :
    (run env).caught = some Exn.timeoutPresence ∧
      specErrorClass Exn.timeoutPresence = ErrorClass.ElementNotFoundError ∧
      (run env).output = [errorLine Exn.timeoutPresence] ∧
      successMessage ∉ (run env).output ∧
      Call.quit ∈ (run env).trace := by
  refine ⟨?_, rfl, ?_, ?_, ?_⟩ <;>
    simp [run, body, hc, hn, hip, successMessage_ne_errorLine]

/-- Claim C4, witness: the element-not-found theorem applied to the
environment where the input element never appears. -/
theorem c4_witness :
    (run envInputNever).caught = some Exn.timeoutPresence ∧
      specErrorClass Exn.timeoutPresence = ErrorClass.ElementNotFoundError ∧
      (run envInputNever).output = [errorLine Exn.timeoutPresence] ∧
      successMessage ∉ (run envInputNever).output ∧
      Call.quit ∈ (run envInputNever).trace :=
  c4_input_never_present envInputNever rfl rfl rfl

/-- Claim C5 (confirmed): when the input element appears and is filled but the
trigger never becomes clickable within the timeout, the run fails with the
clickability-wait timeout, classed by the spec's taxonomy as
`ElementNotInteractableError`, a class distinct from the element-not-found
one; the single error line is printed and teardown still occurs. -/
theorem c5_trigger_never_clickable (env : Env) (hc : env.createFails = none)
    (hn : env.navFails = none) (hip : env.inputPresentWithinTimeout = true)
    (hsk : env.sendKeysFails = none)
    (htc : env.submitClickableWithinTimeout = false) :
    (run env).caught = some Exn.timeoutClickable ∧
      specErrorClass Exn.timeoutClickable =
        ErrorClass.ElementNotInteractableError ∧
      specErrorClass Exn.timeoutClickable ≠ specErrorClass Exn.timeoutPresence ∧
      (run env).output = [errorLine Exn.timeoutClickable] ∧
      successMessage ∉ (run env).output ∧
      Call.quit ∈ (run env).trace := by
  refine ⟨?_, rfl, by decide, ?_, ?_, ?_⟩ <;>
    simp [run, body, hc, hn, hip, hsk, htc, successMessage_ne_errorLine]

/-- Claim C5, witness: the element-not-interactable theorem applied to the
environment where the trigger never becomes clickable. -/
theorem c5_witness :
    (run envTriggerNever).caught = some Exn.timeoutClickable ∧
      specErrorClass Exn.timeoutClickable =
        ErrorClass.ElementNotInteractableError ∧
      specErrorClass Exn.timeoutClickable ≠ specErrorClass Exn.timeoutPresence ∧
      (run envTriggerNever).output = [errorLine Exn.timeoutClickable] ∧
      successMessage ∉ (run envTriggerNever).output ∧
      Call.quit ∈ (run envTriggerNever).trace :=
  c5_trigger_never_clickable envTriggerNever rfl rfl rfl rfl rfl

/-- Claim C6, counterexample: `send_keys` (line 60) types the payload after
whatever the element already holds, so when the textarea starts with content
"old" the fill step leaves "old" followed by the payload, not the payload. -/
theorem c6_counterexample :
    (run envPrefilled).content = some (String.append ("old") answer_text) ∧
      ¬ (run envPrefilled).content = some answer_text := by
  constructor
  · rfl
  · decide

/-- Claim C6 (amended): the fill step appends the payload to the element's
existing content by simulated typing; afterwards the content equals the prior
content followed by the payload, and equals exactly the payload precisely
when the element was empty before the step. -/
theorem c6_fill_appends_payload (env : Env) (hc : env.createFails = none)
    (hn : env.navFails = none) (hip : env.inputPresentWithinTimeout = true)
    (hsk : env.sendKeysFails = none) :
    (run env).content =
        some (String.append env.textareaInitialContent answer_text) ∧
      (env.textareaInitialContent = "" → (run env).content = some answer_text) := by
  have hmain : (run env).content =
      some (String.append env.textareaInitialContent answer_text) := by
    cases htc : env.submitClickableWithinTimeout with
    | false => simp [run, body, hc, hn, hip, hsk, htc]
    | true =>
      cases hck : env.clickFails with
      | some m => simp [run, body, hc, hn, hip, hsk, htc, hck]
      | none =>
        cases hsl : env.sleepFails with
        | some m => simp [run, body, hc, hn, hip, hsk, htc, hck, hsl]
        | none => simp [run, body, hc, hn, hip, hsk, htc, hck, hsl]
  refine ⟨hmain, fun hemp => ?_⟩
  rw [hmain, hemp]
  rfl

/-- Claim C6, witness: the append theorem applied to the environment whose
textarea starts empty, where the final content is exactly the payload. -/
theorem c6_witness :
    (run envAllOk).content = some (String.append ("") answer_text) ∧
      (run envAllOk).content = some answer_text := by
  obtain ⟨h1, h2⟩ := c6_fill_appends_payload envAllOk rfl rfl rfl rfl
  exact ⟨h1, h2 rfl⟩

/-- Claim C7, counterexample: when every main step succeeds but `driver.quit`
raises in the `finally` clause, the script prints only the success line — the
teardown failure is not logged anywhere; it escapes the script as an
unhandled exception. -/
theorem c7_counterexample :
    (run envQuitBoom).output = [successMessage] ∧
      (run envQuitBoom).uncaught =
        some (Exn.quitErr ("browser has been closed")) ∧
      ¬ errorLine (Exn.quitErr ("browser has been closed"))
          ∈ (run envQuitBoom).output := by
  refine ⟨rfl, rfl, ?_⟩
  decide

/-- Claim C7 (amended): when session creation succeeds, teardown is attempted
unconditionally as the very last call regardless of which error occurred, and
the original error's line is printed before teardown runs, so a teardown
failure cannot suppress its reporting; but a teardown failure is not logged —
it escapes the script as an unhandled exception. -/
theorem c7_teardown_last_not_masking (env : Env) (hc : env.createFails = none) :
    (run env).trace.getLast? = some Call.quit ∧
      (∀ e, (run env).caught = some e → errorLine e ∈ (run env).output) ∧
      (∀ m, env.quitFails = some m →
        (run env).uncaught = some (Exn.quitErr m)) := by
  refine ⟨?_, ?_, ?_⟩
  · have htr : (run env).trace =
        (Call.chrome headlessMode :: (body env).calls) ++ [Call.quit] := by
      simp [run, hc]
    rw [htr, List.getLast?_concat]
  · intro e he
    have hb : (body env).raised = some e := by simpa [run, hc] using he
    simp [run, hc, hb]
  · intro m hm
    simp [run, hc, hm]

/-- Claim C7, witness: the teardown theorem applied to the environment in
which the click raises and then `driver.quit` also raises. -/
theorem c7_witness :
    (run envClickAndQuitFail).trace.getLast? = some Call.quit ∧
      errorLine (Exn.clickErr ("element click intercepted"))
          ∈ (run envClickAndQuitFail).output ∧
      (run envClickAndQuitFail).uncaught = some (Exn.quitErr ("gone")) := by
  obtain ⟨h1, h2, h3⟩ := c7_teardown_last_not_masking envClickAndQuitFail rfl
  exact ⟨h1, h2 _ rfl, h3 _ rfl⟩

/-- Claim C8, counterexample: when the browser session fails to start, the
execution ends in `NotStarted`, not in `Closed`, so not every execution
terminates in the `Closed` state. -/
theorem c8_counterexample :
    (run envNoDriver).visited = [RState.NotStarted] ∧
      ¬ (run envNoDriver).visited.getLast? = some RState.Closed := by
  decide

/-- Claim C8 (amended): every execution in which session creation succeeds
visits an initial segment of
NotStarted, SessionOpen, Navigated, FieldFilled, Submitted — in that order,
cut off at the first failing step — and then transitions directly to
`Closed`, terminating there; on success the whole chain is taken; an
execution in which session creation fails terminates in `NotStarted`. -/
theorem c8_state_machine (env : Env) (hc : env.createFails = none) :
    (∃ k, 2 ≤ k ∧ k ≤ 5 ∧
        (run env).visited = stateChain.take k ++ [RState.Closed]) ∧
      (allStepsOk env → (run env).visited = stateChain ++ [RState.Closed]) := by
  constructor
  · cases hnf : env.navFails with
    | some m =>
      exact ⟨2, by decide, by decide, by simp [run, body, hc, hnf, stateChain]⟩
    | none =>
      cases hip : env.inputPresentWithinTimeout with
      | false =>
        exact ⟨3, by decide, by decide,
          by simp [run, body, hc, hnf, hip, stateChain]⟩
      | true =>
        cases hsk : env.sendKeysFails with
        | some m =>
          exact ⟨3, by decide, by decide,
            by simp [run, body, hc, hnf, hip, hsk, stateChain]⟩
        | none =>
          cases htc : env.submitClickableWithinTimeout with
          | false =>
            exact ⟨4, by decide, by decide,
              by simp [run, body, hc, hnf, hip, hsk, htc, stateChain]⟩
          | true =>
            cases hck : env.clickFails with
            | some m =>
              exact ⟨4, by decide, by decide,
                by simp [run, body, hc, hnf, hip, hsk, htc, hck, stateChain]⟩
            | none =>
              cases hsl : env.sleepFails with
              | some m =>
                exact ⟨5, by decide, by decide,
                  by simp [run, body, hc, hnf, hip, hsk, htc, hck, hsl, stateChain]⟩
              | none =>
                exact ⟨5, by decide, by decide,
                  by simp [run, body, hc, hnf, hip, hsk, htc, hck, hsl, stateChain]⟩
  · rintro ⟨-, hn, hip, hsk, htc, hck, hsl⟩
    simp [run, body, hc, hn, hip, hsk, htc, hck, hsl, stateChain]

/-- Claim C8, witness: the state-machine theorem applied to the
all-steps-succeed environment. -/
theorem c8_witness :
    envAllOk.createFails = none ∧
      ((∃ k, 2 ≤ k ∧ k ≤ 5 ∧
          (run envAllOk).visited = stateChain.take k ++ [RState.Closed]) ∧
        (allStepsOk envAllOk →
          (run envAllOk).visited = stateChain ++ [RState.Closed])) :=
  ⟨rfl, c8_state_machine envAllOk rfl⟩

/-- Claim C9 (confirmed): the success line is printed exactly when session
creation, navigation, both waits, the fill, the click and the delay all
complete without raising; whenever the try block raises, the output is
exactly one error line carrying the exception's text, and the success line
is then absent, so the two messages never both appear in one run. -/
theorem c9_success_xor_error (env : Env) :
    (successMessage ∈ (run env).output ↔ allStepsOk env) ∧
      (∀ e, (run env).caught = some e →
        (run env).output = [errorLine e] ∧
          successMessage ∉ (run env).output) := by
  have herr : ∀ e, (run env).caught = some e →
      (run env).output = [errorLine e] ∧
        successMessage ∉ (run env).output := by
    intro e he
    cases hc : env.createFails with
    | some m => simp [run, hc] at he
    | none =>
      have hb : (body env).raised = some e := by simpa [run, hc] using he
      constructor
      · simp [run, hc, hb]
      · simp [run, hc, hb, successMessage_ne_errorLine]
  refine ⟨⟨?_, ?_⟩, herr⟩
  · intro hmem
    cases hc : env.createFails with
    | some m => simp [run, hc] at hmem
    | none =>
      cases hb : (body env).raised with
      | some e => exact absurd hmem (herr e (by simp [run, hc, hb])).2
      | none =>
        obtain ⟨h1, h2, h3, h4, h5, h6⟩ := (body_raised_none_iff env).mp hb
        exact ⟨hc, h1, h2, h3, h4, h5, h6⟩
  · rintro ⟨hc, hn, hip, hsk, htc, hck, hsl⟩
    simp [run, body, hc, hn, hip, hsk, htc, hck, hsl]

/-- Claim C9, witness: the message-exclusivity theorem applied to the
environment where the post-click delay raises. -/
theorem c9_witness :
    (run envSleepFail).output = [errorLine (Exn.sleepErr ("interrupted"))] ∧
      successMessage ∉ (run envSleepFail).output :=
  (c9_success_xor_error envSleepFail).2 _ rfl

/-- Claim C10 (confirmed): the script takes no inputs — the target URL, both
element identifiers, the single 10-second timeout shared by the two waits,
the 2-second settling delay, headless off, and the JSON payload are all
fixed constants — and every execution issues driver calls drawn, in order
and with identical arguments, from one fixed sequence: either just the
session-creation call (when it fails), or the creation call followed by an
initial segment of the fixed main sequence, cut off only by the first
failing step, and the final quit. -/
theorem c10_fixed_constants :
    targetUrl = "http://localhost:3000/paste-json" ∧
    inputFieldId = "json-text" ∧
    submitButtonId = "submit-button" ∧
    waitTimeoutSeconds = 10 ∧
    settleDelaySeconds = 2 ∧
    headlessMode = false ∧
    answer_text = "\x7b\n  \"id\": \"recipe-123\",\n  \"name\": \x7b\n    \"en\": \"Chicken Curry\",\n    \"de\": \"Hühnchen Curry\",\n    \"nl\": \"Kip Curry\",\n    \"hu\": \"Csirke Curry\",\n    \"fr\": \"Curry de Poulet\",\n    \"es\": \"Curry de Pollo\",\n    \"pt\": \"Curry de Frango\"\n  \x7d,\n  \"description\": \x7b\n    \"en\": \"A delicious chicken curry recipe\"\n  \x7d,\n  \"ingredients\": [],\n  \"steps\": [],\n  \"difficulty\": 5,\n  \"servings\": 4,\n  \"time\": \x7b\n    \"prepMinutes\": 15,\n    \"cookMinutes\": 30,\n    \"totalMinutes\": 45\n  \x7d,\n  \"macros\": \x7b\n    \"calories\": 500,\n    \"protein\": 20,\n    \"carbohydrates\": 50,\n    \"fat\": 20\n  \x7d,\n  \"mealType\": \"dinner\",\n  \"cuisineType\": \"indian\"\n\x7d" ∧
    mainCalls =
      [Call.get targetUrl, Call.waitPresent inputFieldId waitTimeoutSeconds,
       Call.sendKeysTo inputFieldId answer_text,
       Call.waitClickable submitButtonId waitTimeoutSeconds,
       Call.click submitButtonId, Call.sleep settleDelaySeconds] ∧
    ∀ env, (run env).trace = [Call.chrome headlessMode] ∨
      ∃ k, k ≤ 6 ∧
        (run env).trace =
          Call.chrome headlessMode :: (mainCalls.take k ++ [Call.quit]) := by
  refine ⟨rfl, rfl, rfl, rfl, rfl, rfl, rfl, rfl, ?_⟩
  intro env
  cases hc : env.createFails with
  | some m => exact Or.inl (by simp [run, hc])
  | none =>
    obtain ⟨k, hk, hcalls⟩ := body_calls_take env
    exact Or.inr ⟨k, hk, by simp [run, hc, hcalls]⟩

end Automation
